import Mathlib

/-!
Shallow embedding of the multi-account session registry and event broadcaster
of the sms-bulk repository, together with the REST handlers the claims talk
about.  Each definition transcribes one function of the JavaScript source;
the doc comment of every definition names the source file and lines it embeds.

Conventions of the embedding:
* Provider-client handles are natural numbers handed out by a counter
  (`nextHandle`); constructing a `new Client(...)` allocates a fresh handle
  and wiring its lifecycle handlers (`client.on(...)`) is counted in
  `handlersWired`, so "no duplicate client, no duplicate wiring" is visible
  in the state.
* The registries are association lists keyed by the account identifier,
  mirroring the plain-object / `Map` registries of the source.
* Outcomes of external I/O (the provider resolving or rejecting a send, the
  document store accepting a write, a file existing on disk, an SSE socket
  accepting a write) are oracle inputs, passed as explicit Boolean fields.
  Everything the repository code itself computes is modelled exactly.
* A missing JSON field is modelled as the empty string or `none`, matching
  the falsiness tests (`if (!accountId)`, `if (!phone)`) of the source.
-/

/-- Digits-only view of a phone string: models `phone.replace(/\D/g, "")`
(src/server.js line 385, src/unnamed/part_004 line 351). -/
def stripNonDigits (s : String) : String :=
  String.mk (s.toList.filter Char.isDigit)

/-- Models `String.prototype.startsWith`, used for the country-code tests. -/
def strStartsWith (s pre : String) : Bool :=
  pre.toList.isPrefixOf s.toList

/-- Models the regular-expression test `/\s/.test(accountId)`
(src/unnamed/part_004 line 197). -/
def hasWhitespace (s : String) : Bool :=
  s.toList.any Char.isWhitespace

/-- One SSE subscriber of an account: its numeric id (`Date.now()` at
subscription time), whether a write to its response stream currently throws
(a closed connection), and the `(eventType, data)` frames written to it so
far (src/server.js lines 332-340). -/
structure SseSub where
  id : Nat
  failing : Bool
  received : List (String × String)
deriving DecidableEq

/-- The body of the `forEach` callback of `broadcastEvent`: the two
`client.res.write` calls of src/server.js lines 91-92, which append the
event frame to the subscriber when the stream accepts the write and leave
it untouched when the write throws. -/
def writeEvent (etype payload : String) (c : SseSub) : SseSub :=
  if c.failing then c else { c with received := c.received ++ [(etype, payload)] }

/-- `broadcastEvent` of src/server.js lines 86-101 for one account:
`sseClients[accountId].forEach` iterates the snapshot of the subscriber
array, writing the frame to each subscriber; the `catch` of a failing write
reassigns `sseClients[accountId]` to the array filtered by the failing
subscriber's id.  The returned list is the final `sseClients[accountId]`. -/
def broadcastEvent (subs : List SseSub) (etype payload : String) : List SseSub :=
  (subs.map (writeEvent etype payload)).filter
    (fun c => !(subs.any (fun d => d.failing && d.id == c.id)))

/-- Repeated `broadcastEvent` calls for a list of `(eventType, payload)`
events, in call order. -/
def broadcastAll (subs : List SseSub) (events : List (String × String)) : List SseSub :=
  events.foldl (fun acc e => broadcastEvent acc e.1 e.2) subs

/-- `WhatsAppManager.emitEvent` of src/unnamed/part_003 lines 210-222,
restricted to one account: `eventStreams` maps an account to at most one
response stream, modelled as `Option (failing, received)`; a failing write
deletes the stream, a successful one appends the frame. -/
def emitEvent (stream : Option (Bool × List (String × String))) (etype payload : String) :
    Option (Bool × List (String × String)) :=
  match stream with
  | none => none
  | some (failing, received) =>
      if failing then none else some (failing, received ++ [(etype, payload)])

/-- The module-level state of src/server.js: the `whatsappClients` and
`sseClients` objects (lines 61-62), the handle counter and wiring counter of
the embedding, and the persisted `Account` collection as a map from
`accountId` to its stored `status` string. -/
structure ServerState where
  whatsappClients : List (String × Nat)
  nextHandle : Nat
  handlersWired : Nat
  sseClients : List (String × List SseSub)
  accounts : List (String × String)
deriving DecidableEq

/-- Replaces the value stored under a key of an association list. -/
def updateEntry {α : Type} (m : List (String × α)) (k : String) (v : α) :
    List (String × α) :=
  m.map (fun q => if q.1 == k then (q.1, v) else q)

/-- `Account.findOneAndUpdate({accountId}, {status, ...}, {upsert})`: updates
the stored status of the account, inserting the record when `upsert` is set
and the account is unknown (src/server.js lines 134-138, 151-154, 166-169,
184-187). -/
def setStatus (accounts : List (String × String)) (aid status : String)
    (upsert : Bool) : List (String × String) :=
  match accounts.lookup aid with
  | some _ => updateEntry accounts aid status
  | none => if upsert then (aid, status) :: accounts else accounts

/-- `broadcastEvent(accountId, type, data)` acting on the whole server state:
returns unchanged when the account has no subscriber array
(src/server.js line 87), otherwise replaces the array by the broadcast
result. -/
def stateBroadcast (s : ServerState) (aid etype payload : String) : ServerState :=
  match s.sseClients.lookup aid with
  | none => s
  | some subs =>
      { s with sseClients := updateEntry s.sseClients aid (broadcastEvent subs etype payload) }

/-- `initializeWhatsAppClient(accountId)` of src/server.js lines 104-215:
when a client is already registered it is returned unchanged; otherwise a
new provider client is constructed (fresh handle), its eight lifecycle
handlers (`qr`, `ready`, `authenticated`, `auth_failure`, `disconnected`,
`loading_screen`, `message`, `error`) are wired, and it is stored. -/
def initializeWhatsAppClient (s : ServerState) (accountId : String) :
    Nat × ServerState :=
  match s.whatsappClients.lookup accountId with
  | some client => (client, s)
  | none =>
      let client := s.nextHandle
      (client,
        { s with
          whatsappClients := (accountId, client) :: s.whatsappClients
          nextHandle := s.nextHandle + 1
          handlersWired := s.handlersWired + 8 })

/-- The `ready` lifecycle handler of src/server.js lines 147-158: broadcast
the event, then set the stored account status to `"ready"` (no upsert). -/
def onReady (s : ServerState) (aid : String) : ServerState :=
  let s1 := stateBroadcast s aid "ready" "Client is ready"
  { s1 with accounts := setStatus s1.accounts aid "ready" false }

/-- The `authenticated` lifecycle handler of src/server.js lines 160-173. -/
def onAuthenticated (s : ServerState) (aid : String) : ServerState :=
  let s1 := stateBroadcast s aid "authenticated" "Client authenticated"
  { s1 with accounts := setStatus s1.accounts aid "authenticated" false }

/-- The `qr` lifecycle handler of src/server.js lines 129-145: when the QR
image encodes, broadcast it and upsert the account with status
`"initialized"`; when encoding fails, broadcast an error event only. -/
def onQr (s : ServerState) (aid qrImage : String) (qrEncodeOk : Bool) : ServerState :=
  if qrEncodeOk then
    let s1 := stateBroadcast s aid "qr" qrImage
    { s1 with accounts := setStatus s1.accounts aid "initialized" true }
  else
    stateBroadcast s aid "error" "Failed to generate QR code"

/-- The `auth_failure` lifecycle handler of src/server.js lines 175-178: it
broadcasts the event and performs no persistence update at all. -/
def onAuthFailure (s : ServerState) (aid msg : String) : ServerState :=
  stateBroadcast s aid "auth_failure" msg

/-- The `disconnected` lifecycle handler of src/server.js lines 180-192:
broadcast the event, set the stored status to `"disconnected"` (persistence
errors are caught and only logged), then `delete whatsappClients[accountId]`. -/
def onDisconnected (s : ServerState) (aid reason : String) : ServerState :=
  let s1 := stateBroadcast s aid "disconnected" reason
  let s2 := { s1 with accounts := setStatus s1.accounts aid "disconnected" false }
  { s2 with whatsappClients := s2.whatsappClients.filter (fun q => !(q.1 == aid)) }

/-- `POST /api/accounts/activate` of src/server.js lines 267-280: a falsy
`accountId` is rejected with 400, anything else goes straight to
`initializeWhatsAppClient` and a success response.  The response is
`(httpStatus, success, message)`. -/
def activateHandler (s : ServerState) (accountId : String) :
    ServerState × (Nat × Bool × String) :=
  if accountId = "" then
    (s, (400, false, "Account ID is required"))
  else
    ((initializeWhatsAppClient s accountId).2, (200, true, "activated"))

/-- Oracle for the logout path: whether `client.destroy()` resolves. -/
structure LogoutEffects where
  destroyOk : Bool
deriving DecidableEq

/-- `POST /api/accounts/logout` of src/server.js lines 283-320 restricted to
the registry: when a client is registered, `destroy()` is awaited inside the
`try`; only when it resolves does `delete whatsappClients[accountId]` run
(followed by session-file removal and the status update), and a rejection is
answered from the `catch` with a 500 response, leaving the registry entry in
place.  Without a registered client the route answers success. -/
def logoutHandler (clients : List (String × Nat)) (eff : LogoutEffects)
    (accountId : String) : List (String × Nat) × (Nat × Bool × String) :=
  if accountId = "" then
    (clients, (400, false, "Account ID is required"))
  else
    match clients.lookup accountId with
    | some _ =>
        if eff.destroyOk then
          (clients.filter (fun q => !(q.1 == accountId)), (200, true, "logged out"))
        else
          (clients, (500, false, "destroy failed"))
    | none => (clients, (200, true, "No active session"))

/-- `WhatsAppManager.logout` of src/unnamed/part_003 lines 254-272: with a
registered client, `client.logout()` and `client.destroy()` are awaited
before `this.clients.delete(accountId)`; a rejection is caught, logged and
rethrown (`throw err`), skipping the delete.  The Boolean result records
whether the call threw. -/
def managerLogout (clients : List (String × Nat)) (destroyOk : Bool)
    (accountId : String) : List (String × Nat) × Bool :=
  match clients.lookup accountId with
  | none => (clients, false)
  | some _ =>
      if destroyOk then
        (clients.filter (fun q => !(q.1 == accountId)), false)
      else
        (clients, true)

/-- The module-level state of src/unnamed/part_004: `whatsappClients` maps an
account to its client handle together with the `client.isReady` flag the
variant maintains (lines 121-123); `broadcasts` logs the
`broadcast(accountId, type, ...)` calls made. -/
structure P4State where
  clients : List (String × Nat × Bool)
  nextHandle : Nat
  handlersWired : Nat
  broadcasts : List (String × String)
  accounts : List (String × String)
deriving DecidableEq

/-- `initializeWhatsAppClient(accountId)` of src/unnamed/part_004 lines
90-175: a registered client is returned unchanged — when it is ready a
`"ready"` frame is re-broadcast first, when it is still starting the
duplicate is avoided silently; otherwise a fresh client is constructed with
`isReady = false`, its five lifecycle handlers (`qr`, `authenticated`,
`ready`, `disconnected`, `auth_failure`) are wired, and it is stored. -/
def initializeWhatsAppClientP4 (s : P4State) (accountId : String) :
    Nat × P4State :=
  match s.clients.lookup accountId with
  | some (client, isReady) =>
      if isReady then
        (client, { s with broadcasts := s.broadcasts ++ [(accountId, "ready")] })
      else
        (client, s)
  | none =>
      let client := s.nextHandle
      (client,
        { s with
          clients := (accountId, client, false) :: s.clients
          nextHandle := s.nextHandle + 1
          handlersWired := s.handlersWired + 5 })

/-- `POST /api/accounts` of src/unnamed/part_004 lines 191-212: reject a
falsy id (400), reject an id matching `/\s/` (400 "No spaces allowed"),
reject an already-persisted account (400), otherwise persist the account
(schema default status `"initialized"`) and initialize its client.  Store
writes are modelled as succeeding. -/
def createAccountHandlerP4 (s : P4State) (accountId : String) :
    P4State × (Nat × Bool × String) :=
  if accountId = "" then
    (s, (400, false, "Account ID required"))
  else if hasWhitespace accountId then
    (s, (400, false, "No spaces allowed"))
  else if (s.accounts.lookup accountId).isSome then
    (s, (400, false, "Account already exists"))
  else
    let s1 := { s with accounts := (accountId, "initialized") :: s.accounts }
    ((initializeWhatsAppClientP4 s1 accountId).2, (200, true, "initialized"))

/-- The `auth_failure` handler of src/unnamed/part_004 lines 161-167 acting
on the persisted accounts: unlike src/server.js, it stores status
`"auth_failure"` (no upsert). -/
def onAuthFailureP4 (accounts : List (String × String)) (aid : String) :
    List (String × String) :=
  setStatus accounts aid "auth_failure" false

/-- The `status` enum of the persisted Account schema of src/unnamed/part_000
lines 3-12. -/
def accountStatusEnum : List String :=
  ["initialized", "authenticated", "ready", "disconnected"]

/-- The `status` enum of the persisted Message schema of
src/models/Message.js lines 11-15. -/
def messageStatusEnum : List String :=
  ["sent", "failed", "delivered"]

/-- Whether the mongoose enum validator of src/models/Message.js accepts a
status value on `save()`. -/
def mongooseWouldAccept (status : String) : Bool :=
  messageStatusEnum.contains status

/-- A `Message` document as constructed by the send-message handler of
src/server.js lines 400-406 (claim-relevant fields). -/
structure MessageRecord where
  accountId : String
  phone : String
  message : String
  status : String
deriving DecidableEq

/-- A `POST /api/send-message` request body.  `phone = ""` and
`message = ""` model the missing/falsy fields. -/
structure SendRequest where
  phone : String
  message : String
  mediaUrl : Option String
  accountId : String
deriving DecidableEq

/-- Oracle for the send path: whether the document store accepts writes,
whether `client.sendMessage` resolves, and whether the media file exists. -/
structure SendEffects where
  saveOk : Bool
  sendOk : Bool
  mediaExists : Bool
deriving DecidableEq

/-- Everything observable about one run of the send-message handler: the
HTTP response if one was sent (`status`/`success`/`errorMsg`), the unhandled
exception if one escaped the handler (`crashed` — the route is an async
function, so an exception thrown inside `catch` rejects the promise and no
response is ever written), the chat ids passed to `client.sendMessage` in
call order, and the records passed to / accepted by `save()`. -/
structure SendOutcome where
  status : Option Nat
  success : Option Bool
  errorMsg : Option String
  crashed : Option String
  sends : List String
  attemptedSaves : List MessageRecord
  savedRecords : List MessageRecord
deriving DecidableEq

/-- `let`/`const` names declared inside the `try` block of the send-message
handler of src/server.js lines 384-435 (`formattedPhone` at line 385). -/
def sendTryLets : List String :=
  ["formattedPhone", "response", "messageRecord"]

/-- Identifiers visible inside the `catch` block of src/server.js lines
436-451: the handler-level declarations of line 360, the module-level
bindings the block uses, and the catch parameter.  Per JavaScript block
scoping the `let` bindings of the `try` block (`sendTryLets`) are NOT in
this scope. -/
def sendHandlerScope : List String :=
  ["phone", "message", "media", "accountId", "client", "Message", "res", "console", "err"]

/-- Identifiers the `catch` block of src/server.js lines 436-451 reads. -/
def sendCatchReads : List String :=
  ["console", "err", "Message", "accountId", "formattedPhone", "message", "media", "res"]

/-- Whether every identifier the catch block reads resolves in its scope;
when one does not, evaluating the block throws a `ReferenceError`. -/
def catchCanRun : Bool :=
  sendCatchReads.all (fun v => sendHandlerScope.contains v)

/-- The `catch` branch of src/server.js lines 436-451: it constructs a
failed `Message` record whose `phone` field reads `formattedPhone` and saves
it, then answers 500.  Because `formattedPhone` is out of scope there
(`catchCanRun = false`), evaluating the `new Message({...})` argument throws
a `ReferenceError` before the record is built, so nothing is saved and no
response is written.  The `catchCanRun = true` branch transcribes what the
block would do if its reads resolved. -/
def runCatch (formattedPhone : String) (sends : List String)
    (attempted saved : List MessageRecord) (req : SendRequest)
    (eff : SendEffects) : SendOutcome :=
  if catchCanRun then
    let recF : MessageRecord :=
      ⟨req.accountId, formattedPhone, req.message, "failed"⟩
    if eff.saveOk then
      ⟨some 500, some false, some "send error", none, sends,
        attempted ++ [recF], saved ++ [recF]⟩
    else
      ⟨none, none, none, some "save failed in catch", sends,
        attempted ++ [recF], saved⟩
  else
    ⟨none, none, none, some "ReferenceError", sends, attempted, saved⟩

/-- The chat id computed by src/server.js lines 385-397 from the digits of
the phone: `"55"` is prepended when the digits do not already start with
`"55"` (and are at least 10 long, which holds past the length guard), then
`"@c.us"` is appended. -/
def serverChatId (digits : String) : String :=
  (if !(strStartsWith digits "55") && decide (10 ≤ digits.length) then
    "55" ++ digits
  else digits) ++ "@c.us"

/-- The chat id computed by src/unnamed/part_004 lines 351-358: `"91"` is
prepended only when the digits start with neither `"55"` nor `"91"`, then
`"@c.us"` is appended.  There is no length test. -/
def p4ChatId (digits : String) : String :=
  (if !(strStartsWith digits "55") && !(strStartsWith digits "91") then
    "91" ++ digits
  else digits) ++ "@c.us"

/-- `POST /api/send-message` of src/server.js lines 359-452.  Control flow,
in source order: falsy-field guards; registry lookup (`whatsappClients`,
line 376 — existence only, no readiness is consulted anywhere); the `try`
block: digit stripping, the 10-digit guard, country code, `"@c.us"`; the
first `save()` of the record with status `"sending"` (its outcome — store
connectivity and mongoose validation together — is the `saveOk` oracle;
`mongooseWouldAccept` separately pins down what the schema validator itself
decides); the media branch (missing file ⇒ a failed record is saved and 400
returned) or the text branch; `client.sendMessage`; the `delivered`
update-save and the 200 response.  A rejected `save` or `sendMessage` lands
in `runCatch`. -/
def sendMessageHandler (clients : List (String × Nat)) (eff : SendEffects)
    (req : SendRequest) : SendOutcome :=
  if req.phone = "" then
    ⟨some 400, some false, some "Phone number is required", none, [], [], []⟩
  else if req.message = "" && req.mediaUrl.isNone then
    ⟨some 400, some false, some "Either message or media is required", none, [], [], []⟩
  else
    match clients.lookup req.accountId with
    | none =>
        ⟨some 400, some false, some "client not initialized", none, [], [], []⟩
    | some _ =>
        let digits := stripNonDigits req.phone
        if digits.length < 10 then
          ⟨some 400, some false, some "Invalid phone number", none, [], [], []⟩
        else
          let formattedPhone := serverChatId digits
          let rec1 : MessageRecord :=
            ⟨req.accountId, formattedPhone, req.message, "sending"⟩
          if !eff.saveOk then
            runCatch formattedPhone [] [rec1] [] req eff
          else
            match req.mediaUrl with
            | some _ =>
                if !eff.mediaExists then
                  let rec2 : MessageRecord :=
                    ⟨req.accountId, formattedPhone, req.message, "failed"⟩
                  ⟨some 400, some false, some "Media file not found", none, [],
                    [rec1, rec2], [rec1, rec2]⟩
                else if eff.sendOk then
                  let rec3 : MessageRecord :=
                    ⟨req.accountId, formattedPhone, req.message, "delivered"⟩
                  ⟨some 200, some true, none, none, [formattedPhone],
                    [rec1, rec3], [rec1, rec3]⟩
                else
                  runCatch formattedPhone [formattedPhone] [rec1] [rec1] req eff
            | none =>
                if eff.sendOk then
                  let rec3 : MessageRecord :=
                    ⟨req.accountId, formattedPhone, req.message, "delivered"⟩
                  ⟨some 200, some true, none, none, [formattedPhone],
                    [rec1, rec3], [rec1, rec3]⟩
                else
                  runCatch formattedPhone [formattedPhone] [rec1] [rec1] req eff

/-- `POST /api/send-message` of src/unnamed/part_004 lines 313-386: the same
falsy-field guards, the same existence-only registry check (line 341 — the
`isReady` flag the variant maintains on each client is never consulted
here), then digit stripping and the `"91"` default with NO minimum-length
test; no document record is involved.  A rejected send answers 500 from the
catch (no scoping issue in this variant). -/
def sendMessageHandlerP4 (clients : List (String × Nat × Bool))
    (eff : SendEffects) (req : SendRequest) : SendOutcome :=
  if req.phone = "" then
    ⟨some 400, some false, some "Phone number is required", none, [], [], []⟩
  else if req.message = "" && req.mediaUrl.isNone then
    ⟨some 400, some false, some "Message or media is required", none, [], [], []⟩
  else
    match clients.lookup req.accountId with
    | none =>
        ⟨some 400, some false, some "client not initialized", none, [], [], []⟩
    | some _ =>
        let digits := stripNonDigits req.phone
        let chatId := p4ChatId digits
        match req.mediaUrl with
        | some _ =>
            if !eff.mediaExists then
              ⟨some 400, some false, some "Media file not found", none, [], [], []⟩
            else if eff.sendOk then
              ⟨some 200, some true, none, none, [chatId], [], []⟩
            else
              ⟨some 500, some false, some "send error", none, [chatId], [], []⟩
        | none =>
            if eff.sendOk then
              ⟨some 200, some true, none, none, [chatId], [], []⟩
            else
              ⟨some 500, some false, some "send error", none, [chatId], [], []⟩

/-- Oracle for the part_005 send path: whether `client.getNumberId` finds
the number on WhatsApp, and whether the send resolves. -/
structure P5Effects where
  onWhatsApp : Bool
  sendOk : Bool
deriving DecidableEq

/-- Observable outcome of the part_005 send endpoint: the response, whether
`sendMessageOrMedia` (the provider delegate) was entered at all, and the
chat ids actually sent to. -/
structure P5Outcome where
  status : Option Nat
  success : Option Bool
  errorMsg : Option String
  delegateCalled : Bool
  providerSends : List String
deriving DecidableEq

/-- The phone normalization of `sendMessageOrMedia`, src/unnamed/part_005
lines 95-96: strip non-digits, prepend `"91"` unless already a prefix. -/
def p5Normalize (phone : String) : String :=
  let digits := stripNonDigits phone
  if strStartsWith digits "91" then digits else "91" ++ digits

/-- `POST /send-message` of src/unnamed/part_005 lines 146-164 together with
`sendMessageOrMedia` (lines 94-143), text path: when the module-level
`isReady` flag is false the route answers 503 without entering the
delegate; otherwise the delegate normalizes the phone, a number not on
WhatsApp is reported as skipped (`{success:false}`), and a resolved send
answers success while a rejection answers 500 from the catch. -/
def p5SendHandler (isReady : Bool) (eff : P5Effects) (phone _message : String) :
    P5Outcome :=
  if !isReady then
    ⟨some 503, none, some "WhatsApp client not ready", false, []⟩
  else
    let formatted := p5Normalize phone
    if !eff.onWhatsApp then
      ⟨some 200, some false, some "Not on WhatsApp", true, []⟩
    else if eff.sendOk then
      ⟨some 200, some true, none, true, [formatted]⟩
    else
      ⟨some 500, some false, some "send error", true, [formatted]⟩

/-! ## Helper lemmas -/

theorem lookup_filter_self {α : Type} (l : List (String × α)) (k : String) :
    (l.filter (fun q => !(q.1 == k))).lookup k = none := by
  induction l with
  | nil => rfl
  | cons a t ih =>
    by_cases h : a.1 = k
    · simpa [List.filter_cons, h] using ih
    · have hk : (k == a.1) = false := beq_eq_false_iff_ne.mpr (Ne.symm h)
      simp [List.filter_cons, List.lookup, h, hk, ih]

theorem writeEvent_id (e p : String) (c : SseSub) :
    (writeEvent e p c).id = c.id := by
  unfold writeEvent; split <;> rfl

theorem writeEvent_failing (e p : String) (c : SseSub) :
    (writeEvent e p c).failing = c.failing := by
  unfold writeEvent; split <;> rfl

theorem mapFilterComm {α β : Type} (f : α → β) (q : β → Bool) (l : List α) :
    (l.map f).filter q = (l.filter (fun a => q (f a))).map f := by
  induction l with
  | nil => rfl
  | cons a t ih =>
    simp only [List.map_cons, List.filter_cons]
    cases hq : q (f a) <;> simp [hq, ih]

theorem any_failing_eq (subs : List SseSub) (c : SseSub)
    (hnd : (subs.map SseSub.id).Nodup) (hc : c ∈ subs) :
    (subs.any (fun d => d.failing && d.id == c.id)) = c.failing := by
  cases hcf : c.failing with
  | true =>
    apply List.any_eq_true.mpr
    exact ⟨c, hc, by simp [hcf]⟩
  | false =>
    rw [List.any_eq_false]
    intro d hd hdp
    have h1 : d.failing = true := (Bool.and_eq_true _ _ |>.mp hdp).1
    have h2 : d.id = c.id := by
      have hb := (Bool.and_eq_true _ _ |>.mp hdp).2
      exact eq_of_beq hb
    have hdc : d = c := List.inj_on_of_nodup_map hnd hd hc h2
    rw [hdc, hcf] at h1
    exact Bool.false_ne_true h1

theorem broadcastEvent_closed (subs : List SseSub) (e p : String)
    (hnd : (subs.map SseSub.id).Nodup) :
    broadcastEvent subs e p
      = (subs.filter (fun c => !c.failing)).map (writeEvent e p) := by
  unfold broadcastEvent
  rw [mapFilterComm]
  congr 1
  apply List.filter_congr
  intro c hc
  rw [writeEvent_id, any_failing_eq subs c hnd hc]

theorem broadcastEvent_nodup (subs : List SseSub) (e p : String)
    (hnd : (subs.map SseSub.id).Nodup) :
    ((broadcastEvent subs e p).map SseSub.id).Nodup := by
  rw [broadcastEvent_closed subs e p hnd, List.map_map]
  have hf : (SseSub.id ∘ writeEvent e p) = SseSub.id :=
    funext (fun c => writeEvent_id e p c)
  rw [hf]
  exact hnd.sublist ((List.filter_sublist subs).map SseSub.id)

theorem mem_broadcastEvent (subs : List SseSub) (e p : String)
    (hnd : (subs.map SseSub.id).Nodup) (c : SseSub)
    (hc : c ∈ subs) (hcf : c.failing = false) :
    writeEvent e p c ∈ broadcastEvent subs e p := by
  rw [broadcastEvent_closed subs e p hnd]
  exact List.mem_map_of_mem _ (List.mem_filter.mpr ⟨hc, by simp [hcf]⟩)

theorem mem_broadcastAll (events : List (String × String)) :
    ∀ (subs : List SseSub), (subs.map SseSub.id).Nodup →
      ∀ c ∈ subs, c.failing = false →
        (⟨c.id, false, c.received ++ events⟩ : SseSub) ∈ broadcastAll subs events := by
  induction events with
  | nil =>
    intro subs hnd c hc hcf
    have hceq : (⟨c.id, false, c.received ++ []⟩ : SseSub) = c := by
      cases c
      simp_all
    rw [hceq]
    simpa [broadcastAll] using hc
  | cons e es ih =>
    intro subs hnd c hc hcf
    have hmem := mem_broadcastEvent subs e.1 e.2 hnd c hc hcf
    have hnd2 := broadcastEvent_nodup subs e.1 e.2 hnd
    have hwf : (writeEvent e.1 e.2 c).failing = false := by
      rw [writeEvent_failing, hcf]
    have hrec : (writeEvent e.1 e.2 c).received = c.received ++ [(e.1, e.2)] := by
      simp [writeEvent, hcf]
    have hres := ih (broadcastEvent subs e.1 e.2) hnd2 (writeEvent e.1 e.2 c) hmem hwf
    have hgoal : (⟨c.id, false, c.received ++ e :: es⟩ : SseSub)
        = ⟨(writeEvent e.1 e.2 c).id, false, (writeEvent e.1 e.2 c).received ++ es⟩ := by
      rw [writeEvent_id, hrec, List.append_assoc]
      rfl
    rw [hgoal]
    simpa [broadcastAll] using hres

/-! ## Claim theorems -/

/-- Claim C1: for every account identifier with a session already in the
registry, a further `initializeWhatsAppClient` call returns the very same
provider-client handle and leaves the registry, the handle counter and the
handler-wiring count untouched — in the part_004 variant regardless of the
`isReady` flag of the existing session; and a second call right after a
first one always returns exactly what the first returned. -/
theorem c1_getOrCreate_idempotent (s : ServerState) (p : P4State) (aid : String)
    (c cp : Nat) (r : Bool)
    (hs : s.whatsappClients.lookup aid = some c)
    (hp : p.clients.lookup aid = some (cp, r)) :
    initializeWhatsAppClient s aid = (c, s) ∧
    initializeWhatsAppClient (initializeWhatsAppClient s aid).2 aid
      = initializeWhatsAppClient s aid ∧
    (initializeWhatsAppClientP4 p aid).1 = cp ∧
    (initializeWhatsAppClientP4 p aid).2.clients = p.clients ∧
    (initializeWhatsAppClientP4 p aid).2.nextHandle = p.nextHandle ∧
    (initializeWhatsAppClientP4 p aid).2.handlersWired = p.handlersWired := by
  have h1 : initializeWhatsAppClient s aid = (c, s) := by
    unfold initializeWhatsAppClient
    rw [hs]
  refine ⟨h1, by rw [h1]; exact h1, ?_, ?_, ?_, ?_⟩ <;>
  · unfold initializeWhatsAppClientP4
    rw [hp]
    cases r <;> simp

theorem c1_witness :
    initializeWhatsAppClient ⟨[("alice", 5)], 9, 8, [], []⟩ "alice"
      = (5, ⟨[("alice", 5)], 9, 8, [], []⟩) ∧
    (initializeWhatsAppClientP4 ⟨[("alice", 3, false)], 7, 5, [], []⟩ "alice").1 = 3 :=
  ⟨(c1_getOrCreate_idempotent ⟨[("alice", 5)], 9, 8, [], []⟩
      ⟨[("alice", 3, false)], 7, 5, [], []⟩ "alice" 5 3 false rfl rfl).1,
   (c1_getOrCreate_idempotent ⟨[("alice", 5)], 9, 8, [], []⟩
      ⟨[("alice", 3, false)], 7, 5, [], []⟩ "alice" 5 3 false rfl rfl).2.2.1⟩

/-- Claim C3 counterexample: with an active session for `"alice"` whose
`destroy()` rejects, the logout route of src/server.js answers 500 and the
registry still holds the session, so a subsequent `initializeWhatsAppClient`
returns the same broken handle 3 instead of creating a fresh session; the
part_003 `WhatsAppManager.logout` likewise rethrows and keeps the entry. -/
theorem c3_counterexample :
    (logoutHandler [("alice", 3)] ⟨false⟩ "alice").1.lookup "alice" = some 3 ∧
    (logoutHandler [("alice", 3)] ⟨false⟩ "alice").2 = (500, false, "destroy failed") ∧
    (initializeWhatsAppClient
        ⟨(logoutHandler [("alice", 3)] ⟨false⟩ "alice").1, 10, 8, [], []⟩ "alice").1 = 3 ∧
    (managerLogout [("alice", 3)] false "alice").1.lookup "alice" = some 3 ∧
    (managerLogout [("alice", 3)] false "alice").2 = true := by
  decide

/-- Claim C3 (amended): when `destroy()` rejects, both logout
implementations catch (src/server.js answers 500, part_003 rethrows) and
leave the registry entry in place; only a successful `destroy()` removes the
entry, after which the account has no session. -/
theorem c3_amended_logout_teardown (clients : List (String × Nat)) (aid : String)
    (h : Nat) (hl : clients.lookup aid = some h) (hne : aid ≠ "") :
    logoutHandler clients ⟨false⟩ aid = (clients, (500, false, "destroy failed")) ∧
    (logoutHandler clients ⟨true⟩ aid).1.lookup aid = none ∧
    (logoutHandler clients ⟨true⟩ aid).2 = (200, true, "logged out") ∧
    managerLogout clients false aid = (clients, true) ∧
    (managerLogout clients true aid).1.lookup aid = none ∧
    (managerLogout clients true aid).2 = false := by
  unfold logoutHandler managerLogout
  rw [hl]
  simp [hne, lookup_filter_self]

theorem c3_witness :
    logoutHandler [("bob", 1)] ⟨false⟩ "bob" = ([("bob", 1)], (500, false, "destroy failed")) ∧
    (logoutHandler [("bob", 1)] ⟨true⟩ "bob").1.lookup "bob" = none :=
  ⟨(c3_amended_logout_teardown [("bob", 1)] "bob" 1 rfl (by decide)).1,
   (c3_amended_logout_teardown [("bob", 1)] "bob" 1 rfl (by decide)).2.1⟩

/-- Claim C5: whenever the provider client of an account emits
`disconnected`, the handler of src/server.js lines 180-192 deletes the
registry entry, so the registry returns no handle for the account, and a
subsequent `initializeWhatsAppClient` takes the creation path: it hands out
the fresh handle, wires the eight lifecycle handlers anew and stores the new
session. -/
theorem c5_disconnected_drops_session (s : ServerState) (aid reason : String) :
    (onDisconnected s aid reason).whatsappClients.lookup aid = none ∧
    (initializeWhatsAppClient (onDisconnected s aid reason) aid).1
      = (onDisconnected s aid reason).nextHandle ∧
    (initializeWhatsAppClient (onDisconnected s aid reason) aid).2.handlersWired
      = (onDisconnected s aid reason).handlersWired + 8 ∧
    (initializeWhatsAppClient (onDisconnected s aid reason) aid).2.whatsappClients.lookup aid
      = some (onDisconnected s aid reason).nextHandle := by
  have hnone : (onDisconnected s aid reason).whatsappClients.lookup aid = none := by
    unfold onDisconnected
    exact lookup_filter_self _ aid
  refine ⟨hnone, ?_, ?_, ?_⟩
  · unfold initializeWhatsAppClient
    rw [hnone]
  · unfold initializeWhatsAppClient
    rw [hnone]
  · unfold initializeWhatsAppClient
    rw [hnone]
    simp [List.lookup]

/-- Claim C7 counterexample: the activate route of src/server.js accepts the
accountId `"a b"`, which contains an embedded space, answers success and
creates a session for it — no `InvalidArgument` rejection happens on this
session-creating route. -/
theorem c7_counterexample :
    hasWhitespace "a b" = true ∧
    (activateHandler ⟨[], 0, 0, [], []⟩ "a b").2 = (200, true, "activated") ∧
    (activateHandler ⟨[], 0, 0, [], []⟩ "a b").1.whatsappClients.lookup "a b" = some 0 := by
  decide

/-- Claim C7 (amended): the session-creating routes reject only a
missing/empty accountId; the whitespace rule exists solely on the part_004
account-creation route (`/\s/` test), while the activate route accepts any
non-empty accountId — embedded whitespace included — and creates a session
for it. -/
theorem c7_amended_accountid_validation :
    (∀ s : ServerState,
      activateHandler s "" = (s, (400, false, "Account ID is required"))) ∧
    (∀ (s : ServerState) (aid : String), aid ≠ "" →
      (activateHandler s aid).2 = (200, true, "activated") ∧
      ((activateHandler s aid).1.whatsappClients.lookup aid).isSome = true) ∧
    (∀ (p : P4State) (aid : String), aid ≠ "" → hasWhitespace aid = true →
      createAccountHandlerP4 p aid = (p, (400, false, "No spaces allowed"))) := by
  refine ⟨?_, ?_, ?_⟩
  · intro s
    simp [activateHandler]
  · intro s aid hne
    unfold activateHandler initializeWhatsAppClient
    rw [if_neg hne]
    cases hl : s.whatsappClients.lookup aid with
    | some c => simp [hl]
    | none => simp [hl, List.lookup]
  · intro p aid hne hw
    simp [createAccountHandlerP4, hne, hw]

theorem c7_witness :
    (activateHandler ⟨[], 0, 0, [], []⟩ "ok").2 = (200, true, "activated") ∧
    createAccountHandlerP4 ⟨[], 0, 0, [], []⟩ "x y"
      = (⟨[], 0, 0, [], []⟩, (400, false, "No spaces allowed")) :=
  ⟨(c7_amended_accountid_validation.2.1 ⟨[], 0, 0, [], []⟩ "ok" (by decide)).1,
   c7_amended_accountid_validation.2.2 ⟨[], 0, 0, [], []⟩ "x y" (by decide) (by decide)⟩

theorem stateBroadcast_accounts (s : ServerState) (aid e p : String) :
    (stateBroadcast s aid e p).accounts = s.accounts := by
  unfold stateBroadcast
  cases s.sseClients.lookup aid <;> rfl

/-- Claim C8 counterexample: the Account schema of src/unnamed/part_000
admits exactly four status values — `auth_failure` is not one of them — and
the `auth_failure` handler of src/server.js leaves the persisted accounts
untouched (here an account stored as `"ready"` stays `"ready"` after the
event). -/
theorem c8_counterexample :
    accountStatusEnum.length = 4 ∧
    accountStatusEnum.contains "auth_failure" = false ∧
    (onAuthFailure ⟨[], 0, 0, [], [("alice", "ready")]⟩ "alice" "boom").accounts
      = [("alice", "ready")] := by
  decide

/-- Claim C8 (amended): the part_000 schema enum is exactly
initialized/authenticated/ready/disconnected; the src/server.js handlers for
`qr`, `authenticated`, `ready` and `disconnected` store the corresponding
status (each of which the enum admits), its `auth_failure` handler performs
no persistence update at all, and only the part_004 variant — whose schema
carries no enum — stores `"auth_failure"` on that event. -/
theorem c8_amended_status_transitions :
    accountStatusEnum = ["initialized", "authenticated", "ready", "disconnected"] ∧
    accountStatusEnum.contains "auth_failure" = false ∧
    (∀ (s : ServerState) (aid msg : String),
      (onAuthFailure s aid msg).accounts = s.accounts) ∧
    (∀ (s : ServerState) (aid : String),
      (onReady s aid).accounts = setStatus s.accounts aid "ready" false) ∧
    (∀ (s : ServerState) (aid : String),
      (onAuthenticated s aid).accounts = setStatus s.accounts aid "authenticated" false) ∧
    (∀ (s : ServerState) (aid img : String),
      (onQr s aid img true).accounts = setStatus s.accounts aid "initialized" true) ∧
    (∀ (s : ServerState) (aid reason : String),
      (onDisconnected s aid reason).accounts = setStatus s.accounts aid "disconnected" false) ∧
    (accountStatusEnum.contains "initialized" = true ∧
      accountStatusEnum.contains "authenticated" = true ∧
      accountStatusEnum.contains "ready" = true ∧
      accountStatusEnum.contains "disconnected" = true) ∧
    (∀ (accounts : List (String × String)) (aid : String),
      onAuthFailureP4 accounts aid = setStatus accounts aid "auth_failure" false) := by
  refine ⟨rfl, by decide, ?_, ?_, ?_, ?_, ?_, by decide, fun _ _ => rfl⟩
  · intro s aid msg
    exact stateBroadcast_accounts s aid "auth_failure" msg
  · intro s aid
    simp [onReady, stateBroadcast_accounts]
  · intro s aid
    simp [onAuthenticated, stateBroadcast_accounts]
  · intro s aid img
    simp [onQr, stateBroadcast_accounts]
  · intro s aid reason
    simp [onDisconnected, stateBroadcast_accounts]

/-- Claim C4: broadcasting an event on an account (with distinct subscriber
ids, as handed out at subscription time) writes the frame to every
non-failing subscriber of the snapshot — each ends up holding its previous
frames followed by the new one, so repeated publishes arrive in call order
(`broadcastAll`) — while every subscriber whose write throws is pruned from
the final subscriber set without preventing delivery to the others; the
part_003 single-stream `emitEvent` likewise delivers to a live stream and
deletes a failing one. -/
theorem c4_broadcast_delivery_and_pruning (subs : List SseSub) (e p : String)
    (hnd : (subs.map SseSub.id).Nodup) :
    broadcastEvent subs e p
      = (subs.filter (fun c => !c.failing)).map (writeEvent e p) ∧
    (∀ c ∈ subs, c.failing = false →
      (⟨c.id, false, c.received ++ [(e, p)]⟩ : SseSub) ∈ broadcastEvent subs e p) ∧
    (∀ c ∈ subs, c.failing = true →
      ∀ cx ∈ broadcastEvent subs e p, cx.id ≠ c.id) ∧
    (∀ events : List (String × String), ∀ c ∈ subs, c.failing = false →
      (⟨c.id, false, c.received ++ events⟩ : SseSub) ∈ broadcastAll subs events) ∧
    (∀ rc : List (String × String),
      emitEvent (some (false, rc)) e p = some (false, rc ++ [(e, p)])) ∧
    (∀ rc : List (String × String),
      emitEvent (some (true, rc)) e p = none) := by
  refine ⟨broadcastEvent_closed subs e p hnd, ?_, ?_, ?_, fun rc => rfl, fun rc => rfl⟩
  · intro c hc hcf
    have hw : writeEvent e p c = (⟨c.id, false, c.received ++ [(e, p)]⟩ : SseSub) := by
      cases c
      simp_all [writeEvent]
    rw [← hw]
    exact mem_broadcastEvent subs e p hnd c hc hcf
  · intro c hc hcf cx hcx
    rw [broadcastEvent_closed subs e p hnd] at hcx
    obtain ⟨d, hd, hdw⟩ := List.mem_map.mp hcx
    have hdmem : d ∈ subs := (List.mem_filter.mp hd).1
    have hdnf : d.failing = false := by
      have := (List.mem_filter.mp hd).2
      simpa using this
    intro hid
    have hdid : d.id = c.id := by
      rw [← hdw] at hid
      rw [writeEvent_id] at hid
      exact hid
    have hdceq : d = c := List.inj_on_of_nodup_map hnd hdmem hc hdid
    rw [hdceq, hcf] at hdnf
    exact Bool.noConfusion hdnf
  · intro events c hc hcf
    exact mem_broadcastAll events subs hnd c hc hcf

theorem c4_witness :
    (⟨1, false, [("qr", "IMG")]⟩ : SseSub)
      ∈ broadcastEvent [⟨1, false, []⟩, ⟨2, true, []⟩] "qr" "IMG" ∧
    (⟨1, false, [("qr", "A"), ("ready", "B")]⟩ : SseSub)
      ∈ broadcastAll [⟨1, false, []⟩, ⟨2, true, []⟩] [("qr", "A"), ("ready", "B")] :=
  ⟨(c4_broadcast_delivery_and_pruning [⟨1, false, []⟩, ⟨2, true, []⟩] "qr" "IMG"
      (by decide)).2.1 ⟨1, false, []⟩ (by decide) rfl,
   (c4_broadcast_delivery_and_pruning [⟨1, false, []⟩, ⟨2, true, []⟩] "qr" "A"
      (by decide)).2.2.2.1 [("qr", "A"), ("ready", "B")] ⟨1, false, []⟩ (by decide) rfl⟩

/-- Claim C2 counterexample: in the part_004 variant a session for `"bob"`
exists with `isReady = false`, yet a send-message request is delegated to
the provider (`sends` is non-empty) and answered with success — not with a
NotReady error; and in the src/server.js variant (which tracks no readiness
at all) the same request on an existing session is likewise delegated, while
with the record save rejecting (as its schema forces, see the C9 theorem)
the request produces no error response at all instead of a NotReady one. -/
theorem c2_counterexample :
    (sendMessageHandlerP4 [("bob", 1, false)] ⟨true, true, true⟩
        ⟨"9876543210", "hi", none, "bob"⟩).sends = ["919876543210@c.us"] ∧
    (sendMessageHandlerP4 [("bob", 1, false)] ⟨true, true, true⟩
        ⟨"9876543210", "hi", none, "bob"⟩).status = some 200 ∧
    (sendMessageHandler [("bob", 1)] ⟨true, true, true⟩
        ⟨"9876543210", "hi", none, "bob"⟩).sends = ["559876543210@c.us"] ∧
    (sendMessageHandler [("bob", 1)] ⟨false, true, true⟩
        ⟨"9876543210", "hi", none, "bob"⟩).status = none := by
  decide

/-- Claim C2 (amended): a send-message request whose account has no session
in the registry is rejected with a 400 not-initialized response and the
provider is never invoked; the part_005 variant, which keeps an `isReady`
flag, additionally rejects a non-ready session with 503 before entering its
provider delegate.  (The multi-account handlers of src/server.js and
part_004 check only existence, so an existing non-ready session proceeds to
the provider — see the counterexample.) -/
theorem c2_amended_no_session_rejected :
    (∀ (clients : List (String × Nat)) (eff : SendEffects) (req : SendRequest),
      clients.lookup req.accountId = none → req.phone ≠ "" → req.message ≠ "" →
      sendMessageHandler clients eff req
        = ⟨some 400, some false, some "client not initialized", none, [], [], []⟩) ∧
    (∀ (eff : P5Effects) (phone msg : String),
      p5SendHandler false eff phone msg
        = ⟨some 503, none, some "WhatsApp client not ready", false, []⟩) := by
  constructor
  · intro clients eff req h0 h1 h2
    unfold sendMessageHandler
    rw [if_neg h1]
    simp [h2, h0]
  · intro eff phone msg
    rfl

theorem c2_witness :
    sendMessageHandler [] ⟨true, true, true⟩ ⟨"9876543210", "hi", none, "ghost"⟩
      = ⟨some 400, some false, some "client not initialized", none, [], [], []⟩ ∧
    p5SendHandler false ⟨true, true⟩ "9876543210" "hi"
      = ⟨some 503, none, some "WhatsApp client not ready", false, []⟩ :=
  ⟨c2_amended_no_session_rejected.1 [] ⟨true, true, true⟩
      ⟨"9876543210", "hi", none, "ghost"⟩ rfl (by decide) (by decide),
   c2_amended_no_session_rejected.2 ⟨true, true⟩ "9876543210" "hi"⟩

/-- Claim C6 counterexample: the part_004 send handler, cited as a source of
the claim, accepts the 5-digit phone `"12345"` — there is no minimum-length
rejection — prepends its default code 91 and delivers `"9112345@c.us"` to
the provider with a success response, where the claim requires a 400
invalid-phone response and no delivery. -/
theorem c6_counterexample :
    (stripNonDigits "12345").length < 10 ∧
    (sendMessageHandlerP4 [("default", 1, true)] ⟨true, true, true⟩
        ⟨"12345", "hi", none, "default"⟩).status = some 200 ∧
    (sendMessageHandlerP4 [("default", 1, true)] ⟨true, true, true⟩
        ⟨"12345", "hi", none, "default"⟩).success = some true ∧
    (sendMessageHandlerP4 [("default", 1, true)] ⟨true, true, true⟩
        ⟨"12345", "hi", none, "default"⟩).sends = ["9112345@c.us"] := by
  decide

/-- Claim C6 (amended): the src/server.js handler strips every non-digit,
rejects a result of fewer than 10 digits with a 400 invalid-phone response
before any record is saved or any delivery attempted, and otherwise — when
the record save succeeds — passes to the provider exactly the digits with
the deployment default 55 prepended when not already a prefix and `"@c.us"`
appended (`serverChatId`).  The part_004 handler performs the same stripping
and suffixing but has no minimum-length check and prepends its default 91
only when the digits start with neither 55 nor 91 (`p4ChatId`). -/
theorem c6_amended_phone_normalization :
    (∀ (clients : List (String × Nat)) (eff : SendEffects) (req : SendRequest) (h : Nat),
      clients.lookup req.accountId = some h → req.phone ≠ "" → req.message ≠ "" →
      (stripNonDigits req.phone).length < 10 →
      sendMessageHandler clients eff req
        = ⟨some 400, some false, some "Invalid phone number", none, [], [], []⟩) ∧
    (∀ (clients : List (String × Nat)) (eff : SendEffects) (req : SendRequest) (h : Nat),
      clients.lookup req.accountId = some h → req.phone ≠ "" → req.message ≠ "" →
      req.mediaUrl = none → ¬((stripNonDigits req.phone).length < 10) →
      eff.saveOk = true →
      (sendMessageHandler clients eff req).sends
        = [serverChatId (stripNonDigits req.phone)]) ∧
    (∀ (clients : List (String × Nat × Bool)) (eff : SendEffects) (req : SendRequest)
        (h : Nat × Bool),
      clients.lookup req.accountId = some h → req.phone ≠ "" → req.message ≠ "" →
      req.mediaUrl = none →
      (sendMessageHandlerP4 clients eff req).sends
        = [p4ChatId (stripNonDigits req.phone)]) := by
  refine ⟨?_, ?_, ?_⟩
  · intro clients eff req h hl h1 h2 hlen
    unfold sendMessageHandler
    rw [if_neg h1]
    simp [h2, hl, hlen]
  · intro clients eff req h hl h1 h2 hmu hlen hsave
    unfold sendMessageHandler runCatch
    rw [if_neg h1]
    simp only [h2, hl, hmu, hlen, hsave]
    have hcr : catchCanRun = false := by decide
    cases hsend : eff.sendOk <;> simp [hcr, hsend]
  · intro clients eff req h hl h1 h2 hmu
    unfold sendMessageHandlerP4
    rw [if_neg h1]
    simp only [h2, hl, hmu]
    cases hsend : eff.sendOk <;> simp [hsend]

theorem c6_witness :
    sendMessageHandler [("a", 0)] ⟨true, true, true⟩ ⟨"+91 12-34", "m", none, "a"⟩
      = ⟨some 400, some false, some "Invalid phone number", none, [], [], []⟩ ∧
    (sendMessageHandler [("a", 0)] ⟨true, true, true⟩
        ⟨"98765-43210", "m", none, "a"⟩).sends = [serverChatId "9876543210"] ∧
    (sendMessageHandlerP4 [("a", 0, true)] ⟨true, true, true⟩
        ⟨"5512345", "m", none, "a"⟩).sends = [p4ChatId "5512345"] :=
  ⟨c6_amended_phone_normalization.1 [("a", 0)] ⟨true, true, true⟩
      ⟨"+91 12-34", "m", none, "a"⟩ 0 rfl (by decide) (by decide) (by decide),
   c6_amended_phone_normalization.2.1 [("a", 0)] ⟨true, true, true⟩
      ⟨"98765-43210", "m", none, "a"⟩ 0 rfl (by decide) (by decide) rfl (by decide) rfl,
   c6_amended_phone_normalization.2.2 [("a", 0, true)] ⟨true, true, true⟩
      ⟨"5512345", "m", none, "a"⟩ (0, true) rfl (by decide) (by decide) rfl⟩

/-- Claim C9 (code bug): the Message schema of src/models/Message.js admits
exactly the statuses sent/failed/delivered, so its mongoose validator
rejects the status `"sending"` — yet `"sending"` is exactly the status of
the first record the src/server.js send handler passes to `save()` before
attempting delivery.  The save the claim calls successful is therefore
rejected by the schema of the very same code. -/
theorem c9_sending_status_rejected_by_schema :
    messageStatusEnum = ["sent", "failed", "delivered"] ∧
    mongooseWouldAccept "sending" = false ∧
    mongooseWouldAccept "delivered" = true ∧
    mongooseWouldAccept "failed" = true ∧
    ((sendMessageHandler [("default", 7)] ⟨true, true, true⟩
        ⟨"9876543210", "hello", none, "default"⟩).attemptedSaves.map
          MessageRecord.status).head? = some "sending" := by
  decide

/-- Claim C10: in the src/server.js send handler, `formattedPhone` is
declared with `let` inside the `try` block (`sendTryLets`) and is therefore
not among the identifiers visible in the `catch` block
(`sendHandlerScope`), so when provider delivery rejects, the catch branch
throws a `ReferenceError`: the handler crashes without saving any failed
record and without sending any response. -/
theorem c10_catch_reads_out_of_scope_variable
    (clients : List (String × Nat)) (eff : SendEffects) (req : SendRequest) (h : Nat)
    (hc : clients.lookup req.accountId = some h)
    (hp : req.phone ≠ "") (hm : req.message ≠ "") (hmu : req.mediaUrl = none)
    (hlen : ¬((stripNonDigits req.phone).length < 10))
    (hsave : eff.saveOk = true) (hsend : eff.sendOk = false) :
    sendTryLets.contains "formattedPhone" = true ∧
    sendHandlerScope.contains "formattedPhone" = false ∧
    catchCanRun = false ∧
    (sendMessageHandler clients eff req).crashed = some "ReferenceError" ∧
    (sendMessageHandler clients eff req).status = none ∧
    (sendMessageHandler clients eff req).success = none ∧
    (sendMessageHandler clients eff req).savedRecords.all
      (fun r => !(r.status == "failed")) = true ∧
    (sendMessageHandler clients eff req).sends
      = [serverChatId (stripNonDigits req.phone)] := by
  have hcr : catchCanRun = false := by decide
  refine ⟨by decide, by decide, hcr, ?_, ?_, ?_, ?_, ?_⟩ <;>
  · unfold sendMessageHandler runCatch
    rw [if_neg hp]
    simp [hm, hc, hmu, hlen, hsave, hsend, hcr]

theorem c10_witness :
    (sendMessageHandler [("default", 7)] ⟨true, false, true⟩
        ⟨"98765 43210", "hello", none, "default"⟩).crashed = some "ReferenceError" ∧
    (sendMessageHandler [("default", 7)] ⟨true, false, true⟩
        ⟨"98765 43210", "hello", none, "default"⟩).status = none ∧
    (sendMessageHandler [("default", 7)] ⟨true, false, true⟩
        ⟨"98765 43210", "hello", none, "default"⟩).savedRecords.all
      (fun r => !(r.status == "failed")) = true :=
  ⟨(c10_catch_reads_out_of_scope_variable [("default", 7)] ⟨true, false, true⟩
      ⟨"98765 43210", "hello", none, "default"⟩ 7 rfl (by decide) (by decide) rfl
      (by decide) rfl rfl).2.2.2.1,
   (c10_catch_reads_out_of_scope_variable [("default", 7)] ⟨true, false, true⟩
      ⟨"98765 43210", "hello", none, "default"⟩ 7 rfl (by decide) (by decide) rfl
      (by decide) rfl rfl).2.2.2.2.1,
   (c10_catch_reads_out_of_scope_variable [("default", 7)] ⟨true, false, true⟩
      ⟨"98765 43210", "hello", none, "default"⟩ 7 rfl (by decide) (by decide) rfl
      (by decide) rfl rfl).2.2.2.2.2.2.1⟩
